import Mathlib

/-!
Shallow embedding of the ASTM/AISC steel capacity-checking module
(`python_modules/materials/astm_aisc/ASTM_materials.py`) and proofs of the
specification claims about it.

Conventions of the embedding:
* Python floats are modelled as real numbers (`ℝ`).
* A Python function that can raise (out-of-range table interpolation,
  out-of-bounds list access, attribute errors) or fall off its end
  (implicit `None` return) is modelled with an `Option` result; `none`
  stands for "no computed value is produced".
* Calls to `lmsg.error` / `lmsg.warning` are modelled by returning the
  emitted messages in a `List String` component alongside the value.
* Collaborator code that lives in modules outside the sample
  (`steel_base`, `connections.bolts`, `aisc_metric_shapes`,
  `buckling_base`, the `geom` polygon library, the `aisc` section
  classification enumeration) is modelled from the specification; each
  such definition carries a doc comment starting `Modelled from the
  spec:`.
-/

open scoped Real

noncomputable section

/-- Modelled from the spec: 3D point used for bolt positions (`geom.Pos3d`,
geometry collaborator outside `src/`). -/
structure Pos3d where
  x : ℝ
  y : ℝ
  z : ℝ

/-- `ASTMSteel`: ASTM structural steel.  The constructor
`ASTMSteel(name, fy, fu, gammaM, Rt, Ry)` calls
`BasicSteel.__init__(200e9, 0.3, fy, fu, gammaM)`, so every instance carries
elastic modulus `E = 200e9` and Poisson ratio `nu = 0.3`;
`name`, `Rt` and `Ry` may be `None` (modelled as `Option`). -/
structure ASTMSteel where
  name : Option String
  E : ℝ
  nu : ℝ
  fy : ℝ
  fu : ℝ
  gammaM : ℝ
  Rt : Option ℝ
  Ry : Option ℝ

/-- Zero-argument constructor `ASTMSteel()`: all defaults
(`name = None`, `fy = 250e6`, `fu = 400e6`, `gammaM = 1.0`,
`Rt = None`, `Ry = None`). -/
def ASTMSteel.default : ASTMSteel :=
  { name := none, E := 200e9, nu := 0.3, fy := 250e6, fu := 400e6,
    gammaM := 1.0, Rt := none, Ry := none }

/-- Registry constant `A36`. -/
def A36 : ASTMSteel :=
  { ASTMSteel.default with
      name := some "A36"
      fy := 250e6
      fu := 400e6
      gammaM := 1.0
      Rt := some 1.2
      Ry := some 1.5 }

/-- Registry constant `A529`. -/
def A529 : ASTMSteel :=
  { ASTMSteel.default with
      name := some "A529"
      fy := 290e6
      fu := 414e6
      gammaM := 1.0
      Rt := some 1.2
      Ry := some 1.2 }

/-- Registry constant `A572`. -/
def A572 : ASTMSteel :=
  { ASTMSteel.default with
      name := some "A572"
      fy := 345e6
      fu := 450e6
      gammaM := 1.0
      Rt := some 1.1
      Ry := some 1.1 }

/-- Registry constant `A53`. -/
def A53 : ASTMSteel :=
  { ASTMSteel.default with
      name := some "A53"
      fy := 240e6
      fu := 414e6
      gammaM := 1.0
      Rt := some 1.2
      Ry := some 1.5 }

/-- Registry constant `A992`. -/
def A992 : ASTMSteel :=
  { ASTMSteel.default with
      name := some "A992"
      fy := 345e6
      fu := 450e6
      gammaM := 1.0
      Rt := some 1.1
      Ry := some 1.1 }

/-- Registry constant `A500`. -/
def A500 : ASTMSteel :=
  { ASTMSteel.default with
      name := some "A500"
      fy := 315e6
      fu := 400e6
      gammaM := 1.0
      Rt := some 1.3
      Ry := some 1.4 }

/-- Registry constant `A307`. -/
def A307 : ASTMSteel :=
  { ASTMSteel.default with
      name := some "A307"
      fy := 245e6
      fu := 390e6
      gammaM := 1.0 }

/-- Registry constant `A325`. -/
def A325 : ASTMSteel :=
  { ASTMSteel.default with
      name := some "A325"
      fy := 660e6
      fu := 830e6
      gammaM := 1.0 }

/-- Unit constant `ksi = 6.89475908677537e6` used by the registry. -/
def ksi : ℝ := 6.89475908677537e6

/-- Registry constant `A354BC`. -/
def A354BC : ASTMSteel :=
  { ASTMSteel.default with
      name := some "A354BC"
      fy := 109 * ksi
      fu := 125 * ksi
      gammaM := 1.0 }

/-- Registry constant `A354BD`. -/
def A354BD : ASTMSteel :=
  { ASTMSteel.default with
      name := some "A354BD"
      fy := 115 * ksi
      fu := 140 * ksi
      gammaM := 1.0 }

/-- Registry constant `A490`. -/
def A490 : ASTMSteel :=
  { ASTMSteel.default with
      name := some "A490"
      fy := 940e6
      fu := 1040e6
      gammaM := 1.0 }

/-- Registry constant `F1554gr36`. -/
def F1554gr36 : ASTMSteel :=
  { ASTMSteel.default with
      name := some "F1554gr36"
      fy := 248e6
      fu := 400e6
      gammaM := 1.0 }

/-- Registry constant `F1554gr55`. -/
def F1554gr55 : ASTMSteel :=
  { ASTMSteel.default with
      name := some "F1554gr55"
      fy := 380e6
      fu := 517e6
      gammaM := 1.0 }

/-- Registry constant `F1554gr105`. -/
def F1554gr105 : ASTMSteel :=
  { ASTMSteel.default with
      name := some "F1554gr105"
      fy := 724e6
      fu := 862e6
      gammaM := 1.0 }

/-- The fixed material registry: the module-level steel grade constants in
the order they are defined. -/
def steelRegistry : List ASTMSteel :=
  [A36, A529, A572, A53, A992, A500, A307, A325, A354BC, A354BD, A490,
   F1554gr36, F1554gr55, F1554gr105]

/-- Python truthiness of an optional string: `None` and the empty string are
falsy.  Both `ASTMSteel.getDict` and `ASTMSteel.setFromDict` guard the name
with `if(name):`. -/
def pyTruthyName (o : Option String) : Option String :=
  match o with
  | none => none
  | some s => if s = "" then none else some s

/-- Dictionary produced by `ASTMSteel.getDict`: the base-class fields plus the
steel name.  Modelled from the spec: `BasicSteel.getDict` (module
`materials/steel_base.py`, not under `src/`) stores the material state
`{E, nu, fy, fu, gammaM}`; `ASTMSteel.getDict` adds `'name'`. -/
structure SteelDict where
  E : ℝ
  nu : ℝ
  fy : ℝ
  fu : ℝ
  gammaM : ℝ
  name : Option String

/-- `ASTMSteel.getDict`: base dictionary updated with the (truthy) name. -/
def ASTMSteel.getDict (s : ASTMSteel) : SteelDict :=
  { E := s.E, nu := s.nu, fy := s.fy, fu := s.fu, gammaM := s.gammaM,
    name := pyTruthyName s.name }

/-- `ASTMSteel.setFromDict`: sets `self.name` from the dictionary (with the
Python truthiness guard) and nothing else — in particular it does not call
`BasicSteel.setFromDict`, so `fy`, `fu`, `gammaM`, `Rt`, `Ry` keep whatever
values the receiving object already has. -/
def ASTMSteel.setFromDict (s : ASTMSteel) (dct : SteelDict) : ASTMSteel :=
  { s with name := pyTruthyName dct.name }

/-- The class-name string stored by `getDict`:
`str(self.steelType.__class__)[8:-2]`.  Every steel in this module is an
`ASTMSteel`, so the stored string is always the same. -/
def steelTypeClassName (_s : ASTMSteel) : String :=
  "materials.astm_aisc.ASTM_materials.ASTMSteel"

/-- Modelled from the spec: `eval(steelTypeClassName+'()')` evaluates the
stored class-name string as code.  The only steel class of the module is
`ASTMSteel`, whose zero-argument constructor yields the default-valued
steel. -/
def evalSteelTypeClass (_className : String) : ASTMSteel :=
  ASTMSteel.default

/-- Dictionary produced by `BoltFastener.getDict` / `AnchorBolt.getDict`.
Modelled from the spec: the symmetric `BoltBase.getDict` /
`BoltBase.setFromDict` pair (module `connections/bolts.py`, not under
`src/`) stores and restores the bolt geometry `{diameter, pos3d}`; the
subclasses add the steel class name, the steel dictionary and (for anchor
bolts) the bolt name. -/
structure BoltDict where
  diameter : ℝ
  pos3d : Option Pos3d
  steelTypeClassName : String
  steelType : SteelDict
  name : String

/-- `BoltFastener`: ASTM bolt (diameter, steel type, optional position). -/
structure BoltFastener where
  diameter : ℝ
  steelType : ASTMSteel
  pos3d : Option Pos3d

/-- `BoltFastener.getDict`: base `{diameter, pos3d}` updated with
`steelTypeClassName` and the steel dictionary (no bolt name is stored;
the `name` slot is unused here). -/
def BoltFastener.getDict (b : BoltFastener) : BoltDict :=
  { diameter := b.diameter, pos3d := b.pos3d,
    steelTypeClassName := steelTypeClassName b.steelType,
    steelType := b.steelType.getDict, name := "" }

/-- `BoltFastener.setFromDict`: restores `{diameter, pos3d}` through the
base class, then rebuilds the steel with
`eval(dct['steelTypeClassName']+'()')` followed by
`steelType.setFromDict(dct['steelType'])`. -/
def BoltFastener.setFromDict (_b : BoltFastener) (dct : BoltDict) :
    BoltFastener :=
  { diameter := dct.diameter, pos3d := dct.pos3d,
    steelType := (evalSteelTypeClass dct.steelTypeClassName).setFromDict
      dct.steelType }

/-- `AnchorBolt`: ASTM anchor bolt (name, steel, diameter, optional
position). -/
structure AnchorBolt where
  name : String
  steelType : ASTMSteel
  diameter : ℝ
  pos3d : Option Pos3d

/-- `AnchorBolt.getDict`: base `{diameter, pos3d}` updated with the bolt
name, `steelTypeClassName` and the steel dictionary. -/
def AnchorBolt.getDict (a : AnchorBolt) : BoltDict :=
  { diameter := a.diameter, pos3d := a.pos3d,
    steelTypeClassName := steelTypeClassName a.steelType,
    steelType := a.steelType.getDict, name := a.name }

/-- `AnchorBolt.setFromDict`: restores `{diameter, pos3d}` through the base
class, sets the name, and rebuilds the steel with
`eval(dct['steelTypeClassName']+'()')` followed by
`steelType.setFromDict(dct['steelType'])`. -/
def AnchorBolt.setFromDict (_a : AnchorBolt) (dct : BoltDict) : AnchorBolt :=
  { name := dct.name, diameter := dct.diameter, pos3d := dct.pos3d,
    steelType := (evalSteelTypeClass dct.steelTypeClassName).setFromDict
      dct.steelType }

/-- Modelled from the spec: `scipy.interpolate.interp1d` with its default
`bounds_error=True`.  Piecewise-linear interpolation over the knots; an
argument outside the tabulated range raises a `ValueError` (modelled as
`none`), it is not extrapolated. -/
def interp1d : List (ℝ × ℝ) → ℝ → Option ℝ
  | [], _ => none
  | [(x0, y0)], x => if x = x0 then some y0 else none
  | (x0, y0) :: (x1, y1) :: rest, x =>
    if x < x0 then none
    else if x ≤ x1 then some (y0 + (y1 - y0) * (x - x0) / (x1 - x0))
    else interp1d ((x1, y1) :: rest) x

/-- Table J3.4M knots: `zip(bf_diams, tabJ3_4M)`. -/
def tabJ3_4Mknots : List (ℝ × ℝ) :=
  [(16e-3, 22e-3), (20e-3, 26e-3), (22e-3, 28e-3), (24e-3, 30e-3),
   (27e-3, 34e-3), (30e-3, 38e-3), (36e-3, 46e-3)]

/-- Table J3.3M standard-hole knots: `zip(bf_diams[:-1], standardHoleDia)`. -/
def standardHoleDiaKnots : List (ℝ × ℝ) :=
  [(16e-3, 18e-3), (20e-3, 22e-3), (22e-3, 24e-3), (24e-3, 27e-3),
   (27e-3, 30e-3), (30e-3, 33e-3)]

/-- Table J3.3M oversize-hole knots: `zip(bf_diams[:-1], oversizeHoleDia)`. -/
def oversizeHoleDiaKnots : List (ℝ × ℝ) :=
  [(16e-3, 20e-3), (20e-3, 24e-3), (22e-3, 28e-3), (24e-3, 30e-3),
   (27e-3, 35e-3), (30e-3, 38e-3)]

/-- Modelled from the spec: `BoltBase.getArea` (module
`connections/bolts.py`, not under `src/`): gross circular cross-section
area `π·(d/2)²` of the bolt (the spec computes an M16 area as
`π·8² mm²`). -/
def BoltFastener.getArea (b : BoltFastener) : ℝ :=
  Real.pi * (b.diameter / 2) ^ 2

/-- Strength group A steel names. -/
def groupA : List String := ["A325", "A325M", "A354BC"]

/-- Strength group B steel names. -/
def groupB : List String := ["A490", "A490M", "A354BD"]

/-- Strength group C steel names. -/
def groupC : List String := ["F3043", "F3111"]

/-- `BoltFastener.getGroup`: classify the steel name into `A`, `B`, `C`
or ungrouped (`None`). -/
def BoltFastener.getGroup (b : BoltFastener) : Option String :=
  match b.steelType.name with
  | none => none
  | some n =>
    if n ∈ groupA then some "A"
    else if n ∈ groupB then some "B"
    else if n ∈ groupC then some "C"
    else none

/-- `BoltFastener.getMinimumEdgeDistanceJ3_4M`: table J3.4M interpolation
for diameters up to 36 mm, `1.25·d` beyond. -/
def BoltFastener.getMinimumEdgeDistanceJ3_4M (b : BoltFastener) : Option ℝ :=
  if b.diameter ≤ 36e-3 then interp1d tabJ3_4Mknots b.diameter
  else some (1.25 * b.diameter)

/-- `BoltFastener.getNominalHoleDiameter`: table J3.3M interpolation for
diameters below 36 mm, fixed offsets (`d+8mm` oversized / `d+3mm`
standard) from 36 mm up. -/
def BoltFastener.getNominalHoleDiameter (b : BoltFastener)
    (oversized : Bool) : Option ℝ :=
  if oversized then
    if b.diameter ≥ 36e-3 then some (b.diameter + 8e-3)
    else interp1d oversizeHoleDiaKnots b.diameter
  else
    if b.diameter ≥ 36e-3 then some (b.diameter + 3e-3)
    else interp1d standardHoleDiaKnots b.diameter

/-- `BoltFastener.getNominalTensileStrength`: area times the
group-dependent stress constant, with the A307 special case and the
`0.75·fu` fallback for other ungrouped steels (table J3.2). -/
def BoltFastener.getNominalTensileStrength (b : BoltFastener) : ℝ :=
  let area := b.getArea
  match b.getGroup with
  | some g =>
    if g = "A" then area * 620e6
    else if g = "B" then area * 780e6
    else if g = "C" then area * 1040e6
    else area
  | none =>
    if b.steelType.name = some "A307" then area * 310e6
    else area * (0.75 * b.steelType.fu)

/-- `BoltFastener.getDesignTensileStrength = 0.75 × nominal`. -/
def BoltFastener.getDesignTensileStrength (b : BoltFastener) : ℝ :=
  0.75 * b.getNominalTensileStrength

/-- `BoltFastener.getNominalShearStrength`: area times the group- and
threads-dependent stress constant, with the A307 special case and the
`0.563·fu` / `0.45·fu` fallback for other ungrouped steels (table J3.2). -/
def BoltFastener.getNominalShearStrength (b : BoltFastener)
    (threadsExcluded : Bool) : ℝ :=
  let area := b.getArea
  match b.getGroup with
  | some g =>
    if g = "A" then area * (if threadsExcluded then 469e6 else 372e6)
    else if g = "B" then area * (if threadsExcluded then 579e6 else 469e6)
    else if g = "C" then area * (if threadsExcluded then 779e6 else 620e6)
    else area
  | none =>
    if b.steelType.name = some "A307" then area * 186e6
    else area * ((if threadsExcluded then 0.563 else 0.45) * b.steelType.fu)

/-- `BoltFastener.getDesignShearStrength = 0.75 × nominal`. -/
def BoltFastener.getDesignShearStrength (b : BoltFastener)
    (threadsExcluded : Bool) : ℝ :=
  0.75 * b.getNominalShearStrength threadsExcluded

/-- Module constant `M16` (default steel `A307`, no position). -/
def M16 : BoltFastener := { diameter := 16e-3, steelType := A307, pos3d := none }

/-- Module constant `M20`. -/
def M20 : BoltFastener := { diameter := 20e-3, steelType := A307, pos3d := none }

/-- Module constant `M22`. -/
def M22 : BoltFastener := { diameter := 22e-3, steelType := A307, pos3d := none }

/-- Module constant `M24`. -/
def M24 : BoltFastener := { diameter := 24e-3, steelType := A307, pos3d := none }

/-- Module constant `M27`. -/
def M27 : BoltFastener := { diameter := 27e-3, steelType := A307, pos3d := none }

/-- Module constant `M30`. -/
def M30 : BoltFastener := { diameter := 30e-3, steelType := A307, pos3d := none }

/-- Module constant `M36`. -/
def M36 : BoltFastener := { diameter := 36e-3, steelType := A307, pos3d := none }

/-- Module constant `standardBolts = [M16, M20, M22, M24, M27, M30, M36]`. -/
def standardBolts : List BoltFastener := [M16, M20, M22, M24, M27, M30, M36]

/-- Loop condition of `getBoltForHole`: the bolt's nominal standard hole
diameter is strictly below `holeDiameter + tol`.  For the seven standard
bolts the table lookup always succeeds; a failed lookup (which would raise
in Python) is treated as no fit. -/
def boltFitsHole (holeDiameter tol : ℝ) (b : BoltFastener) : Bool :=
  match b.getNominalHoleDiameter false with
  | some v => if v < holeDiameter + tol then true else false
  | none => false

/-- `getBoltForHole`: scan `standardBolts[::-1]` (largest first) and return
the first bolt whose nominal standard hole diameter is strictly below
`holeDiameter + tol`; `None` if no bolt fits. -/
def getBoltForHole (holeDiameter : ℝ) (tol : ℝ) : Option BoltFastener :=
  standardBolts.reverse.find? (boltFitsHole holeDiameter tol)

/-- Modelled from the spec: a `geom.Polygon2d` region of the plane
(geometry collaborator outside `src/`); polygons appear here only through
union and area, so they are modelled as point sets. -/
def Polygon2d : Type := Set (ℝ × ℝ)

/-- Modelled from the spec: `Polygon2d.getArea` — the area of the region
(Lebesgue measure of the point set). -/
def Polygon2d.getArea (p : Polygon2d) : ℝ :=
  (MeasureTheory.volume (show Set (ℝ × ℝ) from p)).toReal

/-- Modelled from the spec: `Polygon2d.unePolygon2d` — geometric union of
two polygons (overlapping regions are not double-counted). -/
def Polygon2d.unePolygon2d (p q : Polygon2d) : Polygon2d :=
  show Set (ℝ × ℝ) from
    Set.union (show Set (ℝ × ℝ) from p) (show Set (ℝ × ℝ) from q)

/-- Closed axis-aligned square of half-width `delta` centred at `(cx, cy)`:
the quadrilateral built from the four vertices
`(cx±delta, cy±delta)` appended by `getConcreteBreakoutConePolygon`. -/
def squareRegion (cx cy delta : ℝ) : Polygon2d :=
  show Set (ℝ × ℝ) from
    Set.Icc (cx - delta) (cx + delta) ×ˢ Set.Icc (cy - delta) (cy + delta)

/-- `AnchorBolt.getConcreteBreakoutConePolygon`: square of half-width
`1.5·h_ef` centred at the anchor's planar position; if the position is not
set, an error is logged and the empty polygon is returned. -/
def AnchorBolt.getConcreteBreakoutConePolygon (a : AnchorBolt) (h_ef : ℝ) :
    Polygon2d :=
  match a.pos3d with
  | some p => squareRegion p.x p.y (1.5 * h_ef)
  | none => show Set (ℝ × ℝ) from (∅ : Set (ℝ × ℝ))

/-- `AnchorGroup`: an ordered collection of anchor bolts. -/
structure AnchorGroup where
  anchors : List AnchorBolt

/-- `AnchorGroup.getConcreteBreakoutConePolygon`: starts from
`polygons[0]` and unions in the remaining cones; on an empty group the
`polygons[0]` access is out of bounds (modelled as `none`). -/
def AnchorGroup.getConcreteBreakoutConePolygon (g : AnchorGroup)
    (h_ef : ℝ) : Option Polygon2d :=
  match g.anchors.map (fun a => a.getConcreteBreakoutConePolygon h_ef) with
  | [] => none
  | p :: ps => some (ps.foldl Polygon2d.unePolygon2d p)

/-- `AnchorGroup.getConcreteBreakoutStrength`: single-anchor capacity
scaled by the union-area ratio, the embedment-depth power law and the
pound-force to newton conversion; `self.anchors[0]` is out of bounds on an
empty group (modelled through `head?`). -/
def AnchorGroup.getConcreteBreakoutStrength (g : AnchorGroup)
    (h_ef fc psi3 phi : ℝ) : Option ℝ :=
  (g.getConcreteBreakoutConePolygon h_ef).bind fun plg =>
    g.anchors.head?.map fun a0 =>
      let AN := plg.getArea
      let ANo := (a0.getConcreteBreakoutConePolygon h_ef).getArea
      let fc_psi := fc * 145.038e-6
      let retval := phi * psi3 * Real.sqrt fc_psi * AN / ANo
      let h_ef_in := h_ef / 0.0254
      let retval :=
        if h_ef_in < 11 then retval * (24 * h_ef_in ^ (1.5 : ℝ))
        else retval * (16 * h_ef_in ^ ((5 : ℝ) / 3))
      retval * 4.4482216

/-- Modelled from the spec: `BoltBase.getName` (module
`connections/bolts.py`, not under `src/`) — the bolt's identifier; for an
anchor bolt this is its `name` attribute. -/
def AnchorBolt.getName (a : AnchorBolt) : String := a.name

/-- Modelled from the spec: the lines written by `BoltBase.report`
followed by `AnchorBolt.report`'s steel-type line. -/
def AnchorBolt.report (a : AnchorBolt) : List String :=
  [a.getName, "     steel type: " ++ (a.steelType.name.getD "") ]

/-- `AnchorGroup.report`: writes the anchor count together with
`self.anchors[0]`'s name and specification; the `anchors[0]` accesses are
out of bounds on an empty group (modelled through `head?`). -/
def AnchorGroup.report (g : AnchorGroup) : Option (List String) :=
  g.anchors.head?.map fun a0 =>
    ["   anchors: ",
     "     number of anchors: " ++ toString g.anchors.length ++ " x "
       ++ a0.getName] ++ a0.report

/-- Modelled from the spec: `aisc.SectionClassif` (module
`AISC_limit_state_checking.py`, not under `src/`) — the section
classification enumeration, ordered
`compact < noncompact < slender < tooSlender`. -/
inductive SectionClassif where
  | compact
  | noncompact
  | slender
  | tooSlender
deriving DecidableEq

/-- Numeric rank of a section classification, realising the order used by
the comparison `sectionClassif < aisc.SectionClassif.slender`. -/
def SectionClassif.toNat : SectionClassif → Nat
  | .compact => 0
  | .noncompact => 1
  | .slender => 2
  | .tooSlender => 3

/-- `ASTMShape`: steel shape with ASTM/AISC verification routines.  The
geometric section properties (`get('A')`, `get('iy')`, `get('iz')`,
`get('E')`, `getEffectiveArea`, `slendernessCheck`) and the flexural and
torsional collaborator routines are supplied by the external
`aisc_metric_shapes` mixin (not under `src/`) and are modelled as fields
holding the collaborator's answers. -/
structure ASTMShape where
  name : String
  steelType : ASTMSteel
  A : ℝ
  iy : ℝ
  iz : ℝ
  E : ℝ
  effectiveArea : ℝ
  slendernessCheckVal : ℝ
  designFlexuralStrength : Option ℝ → Option ℝ → Bool → ℝ
  nominalFlexuralStrength : ℝ → ℝ → Bool → ℝ
  lateralTorsionalBucklingLimit : ℝ → ℝ → Bool → ℝ
  torsionalElasticBucklingStress : ℝ → ℝ

/-- `ASTMShape.getDict`: only the shape name is stored. -/
def ASTMShape.getDict (s : ASTMShape) : String := s.name

/-- `ASTMShape.setFromDict`: only the shape name is restored. -/
def ASTMShape.setFromDict (s : ASTMShape) (dct : String) : ASTMShape :=
  { s with name := dct }

/-- `ASTMShape.getDesignTensileStrength` (section D2):
`min(0.9·fy·Ag, 0.75·fu·Ae)`; a missing (or Python-falsy `0.0`) effective
net area defaults to the gross area. -/
def ASTMShape.getDesignTensileStrength (s : ASTMShape) (Ae : Option ℝ) : ℝ :=
  let Ag := s.A
  let retval := 0.9 * s.steelType.fy * Ag
  let Ae' := match Ae with
    | none => Ag
    | some a => if a = 0 then Ag else a
  min retval (0.75 * s.steelType.fu * Ae')

/-- `ASTMShape.getFlexuralSlendernessRatio`: warns when the section has
slender members (`slendernessCheck() > 1.01`), then returns
`max(effectiveLengthZ/iz, effectiveLengthY/iy)`. -/
def ASTMShape.getFlexuralSlendernessRatio (s : ASTMShape)
    (effectiveLengthY effectiveLengthZ : ℝ) : ℝ × List String :=
  (max (effectiveLengthZ / s.iz) (effectiveLengthY / s.iy),
   if s.slendernessCheckVal > 1.01 then
     ["Member section has slender members. Results are not valid."]
   else [])

/-- `ASTMShape.getFlexuralElasticBucklingStress` (equation E3-4):
`π²·E/sr²`. -/
def ASTMShape.getFlexuralElasticBucklingStress (s : ASTMShape)
    (effectiveLengthY effectiveLengthZ : ℝ) : ℝ × List String :=
  let srm := s.getFlexuralSlendernessRatio effectiveLengthY effectiveLengthZ
  (Real.pi ^ 2 * s.E / srm.1 ^ 2, srm.2)

/-- `ASTMShape.getCriticalStressE` (equations E3-2 / E3-3): for compact and
noncompact sections the two-regime formula (`0.658^(Fy/Fe)·Fy` when
`sr ≤ 4.71·√(E/Fy)` or `Fy/Fe ≤ 2.25`, else `0.877·Fe`); for slender and
too-slender sections an error is logged and the initial `retval = 0.0` is
returned.  The Python function ends with an unconditional `return retval`,
so the returned value is always present (`some`); the `Option` records
that no path yields Python's implicit `None`. -/
def ASTMShape.getCriticalStressE (s : ASTMShape)
    (effectiveLengthY effectiveLengthZ : ℝ) (sectionClassif : SectionClassif)
    (Fe : ℝ) : Option ℝ × List String :=
  if sectionClassif.toNat < SectionClassif.slender.toNat then
    let srm := s.getFlexuralSlendernessRatio effectiveLengthY effectiveLengthZ
    let sr := srm.1
    let E := s.E
    let Fy := s.steelType.fy
    let Fratio := Fy / Fe
    let thresholdA := 4.71 * Real.sqrt (E / Fy)
    if sr ≤ thresholdA ∨ Fratio ≤ 2.25 then
      (some ((0.658 : ℝ) ^ Fratio * Fy), srm.2)
    else
      (some (0.877 * Fe), srm.2)
  else
    (some 0, ["Critical stress of slender members not implemented yet."])

/-- `ASTMShape.getFlexuralCriticalStress`: the two-regime critical stress
at the flexural elastic buckling stress. -/
def ASTMShape.getFlexuralCriticalStress (s : ASTMShape)
    (effectiveLengthY effectiveLengthZ : ℝ)
    (sectionClassif : SectionClassif) : Option ℝ × List String :=
  let fem := s.getFlexuralElasticBucklingStress effectiveLengthY
    effectiveLengthZ
  let cs := s.getCriticalStressE effectiveLengthY effectiveLengthZ
    sectionClassif fem.1
  (cs.1, fem.2 ++ cs.2)

/-- `ASTMShape.getTorsionalElasticBucklingStress`: delegated to the
external shape-specific routine (collaborator field). -/
def ASTMShape.getTorsionalElasticBucklingStress (s : ASTMShape)
    (effectiveLengthX : ℝ) : ℝ :=
  s.torsionalElasticBucklingStress effectiveLengthX

/-- `ASTMShape.getTorsionalCriticalStress`: the two-regime critical stress
at the torsional elastic buckling stress. -/
def ASTMShape.getTorsionalCriticalStress (s : ASTMShape)
    (effectiveLengthX effectiveLengthY effectiveLengthZ : ℝ)
    (sectionClassif : SectionClassif) : Option ℝ × List String :=
  s.getCriticalStressE effectiveLengthY effectiveLengthZ sectionClassif
    (s.getTorsionalElasticBucklingStress effectiveLengthX)

/-- `ASTMShape.getNominalCompressiveStrength` (equation E3-1): flexural
path when `effectiveLengthX ≤ max(effectiveLengthY, effectiveLengthZ)`,
torsional path otherwise; the critical stress is multiplied by the gross
area. -/
def ASTMShape.getNominalCompressiveStrength (s : ASTMShape)
    (effectiveLengthX effectiveLengthY effectiveLengthZ : ℝ)
    (sectionClassif : SectionClassif) : Option ℝ × List String :=
  let Ag := s.A
  if effectiveLengthX ≤ max effectiveLengthY effectiveLengthZ then
    let f := s.getFlexuralCriticalStress effectiveLengthY effectiveLengthZ
      sectionClassif
    (f.1.map (· * Ag), f.2)
  else
    let t := s.getTorsionalCriticalStress effectiveLengthX effectiveLengthY
      effectiveLengthZ sectionClassif
    (t.1.map (· * Ag), t.2)

/-- `ASTMShape.getDesignCompressiveStrength = 0.9 × nominal`. -/
def ASTMShape.getDesignCompressiveStrength (s : ASTMShape)
    (effectiveLengthX effectiveLengthY effectiveLengthZ : ℝ)
    (sectionClassif : SectionClassif) : Option ℝ × List String :=
  let n := s.getNominalCompressiveStrength effectiveLengthX effectiveLengthY
    effectiveLengthZ sectionClassif
  (n.1.map (0.9 * ·), n.2)

/-- `ASTMShape.getReferenceCompressiveStrength`: the design compressive
strength at the token effective lengths `0.1`. -/
def ASTMShape.getReferenceCompressiveStrength (s : ASTMShape)
    (sectionClassif : SectionClassif) : Option ℝ × List String :=
  s.getDesignCompressiveStrength 0.1 0.1 0.1 sectionClassif

/-- `ASTMShape.getReferenceFlexuralStrength`: the design flexural strength
at `lateralUnbracedLength = 0.1`, `Cb = 1.0`, major axis. -/
def ASTMShape.getReferenceFlexuralStrength (s : ASTMShape) : ℝ :=
  s.designFlexuralStrength (some 0.1) (some 1.0) true

/-- `ASTMShape.getBiaxialBendingEfficiency` (section H1): compression
branch (`Nd < 0`) uses the reference compressive strength scaled by
`chiN`; otherwise the tensile branch uses the design tensile strength.
The result is the tuple `(CF, NcRd, McRdy, McRdz, MvRdz, MbRdz)`. -/
def ASTMShape.getBiaxialBendingEfficiency (s : ASTMShape)
    (sectionClassif : SectionClassif) (Nd Myd Mzd : ℝ) (_Vyd : ℝ)
    (chiN chiLT : ℝ) : Option (ℝ × ℝ × ℝ × ℝ × ℝ × ℝ) × List String :=
  let McRdy := s.designFlexuralStrength none none false
  let McRdz := s.getReferenceFlexuralStrength
  let MvRdz := McRdz
  let MbRdz := chiLT * MvRdz
  let ratioMz := |Mzd| / MbRdz
  let ratioMy := |Myd| / McRdy
  if Nd < 0 then
    let rc := s.getReferenceCompressiveStrength sectionClassif
    match rc.1 with
    | none => (none, rc.2)
    | some rcv =>
      let NcRd := chiN * rcv
      let ratioN := |Nd| / NcRd
      let CF :=
        if ratioN ≥ 0.2 then ratioN + 8.0 / 9.0 * (ratioMz + ratioMy)
        else ratioN / 2.0 + (ratioMz + ratioMy)
      (some (CF, NcRd, McRdy, McRdz, MvRdz, MbRdz), rc.2)
  else
    let NcRd := s.getDesignTensileStrength none
    let ratioN := Nd / NcRd
    let CF :=
      if ratioN ≥ 0.2 then ratioN + 8.0 / 9.0 * (ratioMz + ratioMy)
      else ratioN / 2.0 + (ratioMz + ratioMy)
    (some (CF, NcRd, McRdy, McRdz, MvRdz, MbRdz), [])

/-- `BendingState`: absolute moments at the quarter points of the unbraced
segment. -/
structure BendingState where
  Mmax : ℝ
  Ma : ℝ
  Mb : ℝ
  Mc : ℝ

/-- `BendingState.getLateralTorsionalBucklingModificationFactor`
(expression F1-1): `12.5·Mmax / (2.5·Mmax + 3·Ma + 4·Mb + 3·Mc)`. -/
def BendingState.getLateralTorsionalBucklingModificationFactor
    (bs : BendingState) : ℝ :=
  12.5 * bs.Mmax / (2.5 * bs.Mmax + 3 * bs.Ma + 4 * bs.Mb + 3 * bs.Mc)

/-- `MemberConnection`: member length, unbraced length and end fixities
(`'free'` / `'fixed'`).  The effective buckling length coefficient is
delegated to the `buckling_base` collaborator (not under `src/`) and is
modelled from the spec as a field holding the fixity-based lookup's
answer `K`. -/
structure MemberConnection where
  L : ℝ
  Lb : ℝ
  rotI : String
  transI : String
  rotJ : String
  transJ : String
  K : ℝ

/-- `MemberConnection.getLateralTorsionalBucklingModificationFactor`:
`Cb = 1.0` for a cantilever (far end free in rotation and translation),
otherwise the F1-1 quarter-point formula. -/
def MemberConnection.getLateralTorsionalBucklingModificationFactor
    (c : MemberConnection) (bendingState : BendingState) : ℝ :=
  if c.transJ = "free" ∧ c.rotJ = "free" then 1.0
  else bendingState.getLateralTorsionalBucklingModificationFactor

/-- `ConnectedMember`: a structural shape with its end-connection data. -/
structure ConnectedMember where
  shape : ASTMShape
  connection : MemberConnection

/-- `ConnectedMember.getEffectiveLength` (section E2): `K·L`. -/
def ConnectedMember.getEffectiveLength (m : ConnectedMember) : ℝ :=
  m.connection.K * m.connection.L

/-- `ConnectedMember.getSlendernessRatio`: effective length divided by the
minimum radius of gyration. -/
def ConnectedMember.getSlendernessRatio (m : ConnectedMember) : ℝ :=
  let Lc := m.getEffectiveLength
  let r := min m.shape.iy m.shape.iz
  Lc / r

/-- `ConnectedMember.getElasticBucklingStress`: `π²·E/r²` with the
member's own slenderness ratio. -/
def ConnectedMember.getElasticBucklingStress (m : ConnectedMember) : ℝ :=
  Real.pi ^ 2 * m.shape.steelType.E / m.getSlendernessRatio ^ 2

/-- `ConnectedMember.getCriticalStress` (section E7): the same two-regime
formula as `getCriticalStressE`, with the member's own slenderness ratio
and elastic buckling stress. -/
def ConnectedMember.getCriticalStress (m : ConnectedMember) : ℝ :=
  let treshold := 4.71 * Real.sqrt (m.shape.steelType.E / m.shape.steelType.fy)
  let r := m.getSlendernessRatio
  let Fe := m.getElasticBucklingStress
  let fy_fe := m.shape.steelType.fy / Fe
  if r ≤ treshold ∨ fy_fe ≤ 2.25 then
    (0.658 : ℝ) ^ fy_fe * m.shape.steelType.fy
  else 0.877 * Fe

/-- `ConnectedMember.getNominalCompressiveStrength` (section E7):
effective area times the member critical stress. -/
def ConnectedMember.getNominalCompressiveStrength (m : ConnectedMember) : ℝ :=
  m.shape.effectiveArea * m.getCriticalStress

/-- `ConnectedMember.getZLateralTorsionalBucklingFlexuralStrength`:
collaborator lateral-torsional buckling limit at the connection's `Lb`
and `Cb`. -/
def ConnectedMember.getZLateralTorsionalBucklingFlexuralStrength
    (m : ConnectedMember) (bendingState : BendingState) : ℝ :=
  let cb := m.connection.getLateralTorsionalBucklingModificationFactor
    bendingState
  m.shape.lateralTorsionalBucklingLimit m.connection.Lb cb true

/-- `ConnectedMember.getZNominalFlexuralStrength`: collaborator nominal
flexural strength about z; when `AfgAfnRatio > 1.0` the source evaluates
`self.steelType.fy` on the `ConnectedMember`, which has no `steelType`
attribute — the call raises an `AttributeError` (modelled as `none`). -/
def ConnectedMember.getZNominalFlexuralStrength (m : ConnectedMember)
    (bendingState : BendingState) (AfgAfnRatio : ℝ) : Option ℝ :=
  let cb := m.connection.getLateralTorsionalBucklingModificationFactor
    bendingState
  let retval := m.shape.nominalFlexuralStrength m.connection.Lb cb true
  if AfgAfnRatio > 1.0 then none
  else some retval

/-- `ConnectedMember.getYNominalFlexuralStrength`: collaborator nominal
flexural strength about y. -/
def ConnectedMember.getYNominalFlexuralStrength (m : ConnectedMember)
    (bendingState : BendingState) : ℝ :=
  let cb := m.connection.getLateralTorsionalBucklingModificationFactor
    bendingState
  m.shape.nominalFlexuralStrength m.connection.Lb cb false

/-- `ConnectedMember.getCapacityFactor` (section H1): for `Nd ≤ 0` the
compression-branch interaction value (equations H1-1a / H1-1b); for
`Nd > 0` the function logs `'Capacity factor not implemented for
tension.'` and falls off its end, returning Python's implicit `None`. -/
def ConnectedMember.getCapacityFactor (m : ConnectedMember)
    (Nd Myd Mzd gammaC : ℝ) (bendingStateY bendingStateZ : BendingState)
    (AfgAfnRatio : ℝ) : Option ℝ × List String :=
  if Nd ≤ 0 then
    match m.getZNominalFlexuralStrength bendingStateZ AfgAfnRatio with
    | none => (none, [])
    | some mnz =>
      let Pn := m.getNominalCompressiveStrength / gammaC
      let Mnz := mnz / gammaC
      let Mny := m.getYNominalFlexuralStrength bendingStateY / gammaC
      let ratioN := |Nd| / Pn
      let Msum := |Mzd| / Mnz + |Myd| / Mny
      (some (if ratioN ≥ 0.2 then ratioN + 8 / 9.0 * Msum
             else ratioN / 2.0 + Msum), [])
  else
    (none, ["Capacity factor not implemented for tension."])

/-- Concrete shape used to instantiate universally quantified theorems:
an `A36` shape with explicit section properties and constant collaborator
answers. -/
def sampleShape : ASTMShape :=
  { name := "S", steelType := A36, A := 0.01, iy := 0.05, iz := 0.1,
    E := 200e9, effectiveArea := 0.009, slendernessCheckVal := 1.0,
    designFlexuralStrength := fun _ _ _ => 1.0e5,
    nominalFlexuralStrength := fun _ _ _ => 2.0e5,
    lateralTorsionalBucklingLimit := fun _ _ _ => 1.5e5,
    torsionalElasticBucklingStress := fun _ => 3.0e8 }

/-- Concrete member connection (pinned-pinned, `K = 1`). -/
def sampleConnection : MemberConnection :=
  { L := 3.0, Lb := 3.0, rotI := "free", transI := "fixed",
    rotJ := "free", transJ := "fixed", K := 1.0 }

/-- Concrete connected member built from the sample shape and
connection. -/
def sampleMember : ConnectedMember :=
  { shape := sampleShape, connection := sampleConnection }

/-- Concrete bending state with uniform moments. -/
def sampleBendingState : BendingState :=
  { Mmax := 1.0, Ma := 1.0, Mb := 1.0, Mc := 1.0 }

/-- Concrete anchor bolt with a set position. -/
def sampleAnchor : AnchorBolt :=
  { name := "0", steelType := F1554gr36, diameter := 0.019,
    pos3d := some { x := 0, y := 0, z := 0 } }

/-- Concrete single-anchor group. -/
def sampleAnchorGroup : AnchorGroup := { anchors := [sampleAnchor] }

/-- Concrete empty anchor group. -/
def emptyAnchorGroup : AnchorGroup := { anchors := [] }

/-- On a list sorted by descending `diam`, the first element `find?`
accepts is a `diam`-maximum among all accepted elements. -/
theorem findDescLargest {α : Type} (diam : α → ℝ) (p : α → Bool) :
    ∀ l : List α, l.Pairwise (fun a b => diam b ≤ diam a) →
      ∀ b, l.find? p = some b → ∀ a ∈ l, p a = true → diam a ≤ diam b := by
  intro l
  induction l with
  | nil => intro _ b hb; simp at hb
  | cons x xs ih =>
    intro hpw b hb a ha hpa
    rcases List.pairwise_cons.mp hpw with ⟨hx, hxs⟩
    by_cases hpx : p x = true
    · rw [List.find?_cons_of_pos _ hpx] at hb
      cases hb
      rcases List.mem_cons.mp ha with h1 | h1
      · exact le_of_eq (congrArg diam h1)
      · exact hx a h1
    · rw [List.find?_cons_of_neg _ hpx] at hb
      rcases List.mem_cons.mp ha with h1 | h1
      · exact absurd (h1 ▸ hpa) hpx
      · exact ih hxs b hb a h1 hpa

/-- Area of the square breakout cone: `(2·delta)²` for `delta ≥ 0`. -/
theorem squareRegion_area (cx cy delta : ℝ) (h : 0 ≤ delta) :
    (squareRegion cx cy delta).getArea = 2 * delta * (2 * delta) := by
  unfold squareRegion Polygon2d.getArea
  rw [MeasureTheory.Measure.volume_eq_prod, MeasureTheory.Measure.prod_prod,
    Real.volume_Icc, Real.volume_Icc,
    show cx + delta - (cx - delta) = 2 * delta by ring,
    show cy + delta - (cy - delta) = 2 * delta by ring,
    ← ENNReal.ofReal_mul (by linarith)]
  exact ENNReal.toReal_ofReal (by positivity)

/-- C8: every steel grade constant in the fixed registry satisfies
`fy ≤ fu`, and `Rt ≥ 1` and `Ry ≥ 1` whenever those ratios are defined;
in this embedding the registry constants are immutable definitions, so
the values cannot change after module load. -/
theorem steelRegistry_invariants :
    ∀ s ∈ steelRegistry,
      s.fy ≤ s.fu ∧ (∀ r ∈ s.Rt, 1 ≤ r) ∧ (∀ r ∈ s.Ry, 1 ≤ r) := by
  intro s hs
  fin_cases hs <;>
    simp_all [A36, A529, A572, A53, A992, A500, A307, A325, A354BC, A354BD,
      A490, F1554gr36, F1554gr55, F1554gr105, ASTMSteel.default,
      Option.mem_def] <;>
    norm_num [ksi]

/-- Witness for C8 at the registry constant `A36`. -/
theorem steelRegistry_invariants_witness :
    A36.fy ≤ A36.fu ∧ (∀ r ∈ A36.Rt, 1 ≤ r) ∧ (∀ r ∈ A36.Ry, 1 ≤ r) :=
  steelRegistry_invariants A36 (by simp [steelRegistry])

/-- The Python truthiness guard is idempotent. -/
theorem pyTruthyName_idem (o : Option String) :
    pyTruthyName (pyTruthyName o) = pyTruthyName o := by
  cases o with
  | none => rfl
  | some s =>
    by_cases h : s = "" <;> simp [pyTruthyName, h]

/-- C3 counterexample: the module constant `M16` carries `A307` steel with
`fy = 245e6`, but `setFromDict(getDict())` rebuilds its steel with
`eval('...ASTMSteel()')`, whose defaults (`fy = 250e6`) are never
overwritten because `ASTMSteel.setFromDict` restores only the name — so
the round trip does not reproduce an equal-valued entity. -/
theorem boltRoundTrip_cx :
    M16.setFromDict M16.getDict ≠ M16 := by
  intro h
  have h2 := congrArg (fun b => b.steelType.fy) h
  simp [BoltFastener.setFromDict, BoltFastener.getDict, evalSteelTypeClass,
    ASTMSteel.setFromDict, ASTMSteel.getDict, ASTMSteel.default, M16, A307,
    pyTruthyName] at h2
  norm_num at h2

/-- C3 (amended): for `BoltFastener` and `AnchorBolt`,
`setFromDict(getDict())` preserves the diameter, the position, the anchor
name and the steel's (truthy) name, but replaces the rest of the steel's
state with the `ASTMSteel()` constructor defaults
(`fy = 250e6`, `fu = 400e6`, `gammaM = 1.0`, `Rt = Ry = None`); the plain
`ASTMShape` dictionary stores only the shape name and round-trips
exactly. -/
theorem roundTrip_amended :
    (∀ b : BoltFastener, b.setFromDict b.getDict =
      { diameter := b.diameter, pos3d := b.pos3d,
        steelType :=
          { ASTMSteel.default with
              name := pyTruthyName b.steelType.name } }) ∧
    (∀ a : AnchorBolt, a.setFromDict a.getDict =
      { name := a.name, diameter := a.diameter, pos3d := a.pos3d,
        steelType :=
          { ASTMSteel.default with
              name := pyTruthyName a.steelType.name } }) ∧
    (∀ s : ASTMShape, s.setFromDict s.getDict = s) := by
  refine ⟨fun b => ?_, fun a => ?_, fun s => rfl⟩ <;>
    simp [BoltFastener.setFromDict, BoltFastener.getDict,
      AnchorBolt.setFromDict, AnchorBolt.getDict, evalSteelTypeClass,
      ASTMSteel.setFromDict, ASTMSteel.getDict, pyTruthyName_idem]

/-- Evaluation rule for `interp1d`: argument below the first knot. -/
theorem interp1d_lt_head {x0 y0 x1 y1 x : ℝ} {rest : List (ℝ × ℝ)}
    (h : x < x0) : interp1d ((x0, y0) :: (x1, y1) :: rest) x = none := by
  unfold interp1d
  rw [if_pos h]

/-- Evaluation rule for `interp1d`: argument inside the first segment. -/
theorem interp1d_seg {x0 y0 x1 y1 x : ℝ} {rest : List (ℝ × ℝ)}
    (h0 : ¬x < x0) (h1 : x ≤ x1) :
    interp1d ((x0, y0) :: (x1, y1) :: rest) x
      = some (y0 + (y1 - y0) * (x - x0) / (x1 - x0)) := by
  unfold interp1d
  rw [if_neg h0, if_pos h1]

/-- Evaluation rule for `interp1d`: argument beyond the first segment. -/
theorem interp1d_skip {x0 y0 x1 y1 x : ℝ} {rest : List (ℝ × ℝ)}
    (h0 : ¬x < x0) (h1 : ¬x ≤ x1) :
    interp1d ((x0, y0) :: (x1, y1) :: rest) x
      = interp1d ((x1, y1) :: rest) x := by
  conv_lhs => unfold interp1d
  rw [if_neg h0, if_neg h1]

/-- Evaluation rule for `interp1d`: argument off the final knot. -/
theorem interp1d_single_ne {x0 y0 x : ℝ} (h : x ≠ x0) :
    interp1d [(x0, y0)] x = none := by
  unfold interp1d
  rw [if_neg h]

/-- The standard-hole table lookup fails for any diameter strictly between
30 mm and 36 mm (and below, for any diameter under 16 mm the head rule
applies instead). -/
theorem standardHoleDia_gap {d : ℝ} (h1 : 30e-3 < d) (h2 : d < 36e-3) :
    interp1d standardHoleDiaKnots d = none := by
  rw [standardHoleDiaKnots,
    interp1d_skip (not_lt.mpr (by linarith)) (not_le.mpr (by linarith)),
    interp1d_skip (not_lt.mpr (by linarith)) (not_le.mpr (by linarith)),
    interp1d_skip (not_lt.mpr (by linarith)) (not_le.mpr (by linarith)),
    interp1d_skip (not_lt.mpr (by linarith)) (not_le.mpr (by linarith)),
    interp1d_skip (not_lt.mpr (by linarith)) (not_le.mpr (by linarith)),
    interp1d_single_ne (ne_of_gt h1)]

/-- The oversize-hole table lookup fails for any diameter strictly between
30 mm and 36 mm. -/
theorem oversizeHoleDia_gap {d : ℝ} (h1 : 30e-3 < d) (h2 : d < 36e-3) :
    interp1d oversizeHoleDiaKnots d = none := by
  rw [oversizeHoleDiaKnots,
    interp1d_skip (not_lt.mpr (by linarith)) (not_le.mpr (by linarith)),
    interp1d_skip (not_lt.mpr (by linarith)) (not_le.mpr (by linarith)),
    interp1d_skip (not_lt.mpr (by linarith)) (not_le.mpr (by linarith)),
    interp1d_skip (not_lt.mpr (by linarith)) (not_le.mpr (by linarith)),
    interp1d_skip (not_lt.mpr (by linarith)) (not_le.mpr (by linarith)),
    interp1d_single_ne (ne_of_gt h1)]

/-- C5 counterexample: a 12 mm bolt is below the 16 mm table minimum and a
33 mm bolt falls in the (30 mm, 36 mm) gap of the hole-diameter tables; in
both cases the `scipy` interpolation raises an out-of-range error
(modelled `none`) instead of extrapolating, so the functions do fail. -/
theorem boltTables_out_of_range_cx :
    (⟨12e-3, A307, none⟩ : BoltFastener).getMinimumEdgeDistanceJ3_4M
        = none ∧
    (⟨33e-3, A307, none⟩ : BoltFastener).getNominalHoleDiameter false
        = none ∧
    (⟨33e-3, A307, none⟩ : BoltFastener).getNominalHoleDiameter true
        = none := by
  refine ⟨?_, ?_, ?_⟩
  · rw [BoltFastener.getMinimumEdgeDistanceJ3_4M, if_pos (by norm_num),
      tabJ3_4Mknots]
    exact interp1d_lt_head (by norm_num)
  · rw [BoltFastener.getNominalHoleDiameter, if_neg (by norm_num),
      if_neg (by norm_num)]
    exact standardHoleDia_gap (by norm_num) (by norm_num)
  · rw [BoltFastener.getNominalHoleDiameter, if_pos rfl,
      if_neg (by norm_num)]
    exact oversizeHoleDia_gap (by norm_num) (by norm_num)

/-- C5 (amended): within the tabulated range the table functions
interpolate, and from 36 mm up the closed-form offsets
(`1.25·d`, `d+3mm`, `d+8mm`) apply, but for diameters below the 16 mm
table minimum — and, for the hole-diameter tables, strictly between 30 mm
and 36 mm — the interpolation raises an out-of-range error (modelled
`none`) rather than extrapolating via the boundary segment. -/
theorem boltTables_amended :
    (∀ b : BoltFastener, b.diameter < 16e-3 →
        b.getMinimumEdgeDistanceJ3_4M = none ∧
        b.getNominalHoleDiameter false = none ∧
        b.getNominalHoleDiameter true = none) ∧
    (∀ b : BoltFastener, 36e-3 < b.diameter →
        b.getMinimumEdgeDistanceJ3_4M = some (1.25 * b.diameter)) ∧
    (∀ b : BoltFastener, 36e-3 ≤ b.diameter →
        b.getNominalHoleDiameter false = some (b.diameter + 3e-3) ∧
        b.getNominalHoleDiameter true = some (b.diameter + 8e-3)) ∧
    (∀ b : BoltFastener, 30e-3 < b.diameter → b.diameter < 36e-3 →
        b.getNominalHoleDiameter false = none ∧
        b.getNominalHoleDiameter true = none) := by
  refine ⟨fun b h => ⟨?_, ?_, ?_⟩, fun b h => ?_, fun b h => ⟨?_, ?_⟩,
    fun b h1 h2 => ⟨?_, ?_⟩⟩
  · rw [BoltFastener.getMinimumEdgeDistanceJ3_4M, if_pos (by linarith),
      tabJ3_4Mknots]
    exact interp1d_lt_head (by linarith)
  · rw [BoltFastener.getNominalHoleDiameter, if_neg (by norm_num),
      if_neg (not_le.mpr (by linarith)), standardHoleDiaKnots]
    exact interp1d_lt_head (by linarith)
  · rw [BoltFastener.getNominalHoleDiameter, if_pos rfl,
      if_neg (not_le.mpr (by linarith)), oversizeHoleDiaKnots]
    exact interp1d_lt_head (by linarith)
  · rw [BoltFastener.getMinimumEdgeDistanceJ3_4M,
      if_neg (not_le.mpr (by linarith))]
  · rw [BoltFastener.getNominalHoleDiameter, if_neg (by norm_num),
      if_pos (by linarith)]
  · rw [BoltFastener.getNominalHoleDiameter, if_pos rfl, if_pos (by linarith)]
  · rw [BoltFastener.getNominalHoleDiameter, if_neg (by norm_num),
      if_neg (not_le.mpr (by linarith))]
    exact standardHoleDia_gap h1 h2
  · rw [BoltFastener.getNominalHoleDiameter, if_pos rfl,
      if_neg (not_le.mpr (by linarith))]
    exact oversizeHoleDia_gap h1 h2

/-- Witness for C5 at the concrete diameters 12 mm, 40 mm, 36 mm and
34 mm. -/
theorem boltTables_amended_witness :
    ((⟨12e-3, A307, none⟩ : BoltFastener).getMinimumEdgeDistanceJ3_4M
        = none ∧
      (⟨12e-3, A307, none⟩ : BoltFastener).getNominalHoleDiameter false
        = none ∧
      (⟨12e-3, A307, none⟩ : BoltFastener).getNominalHoleDiameter true
        = none) ∧
    ((⟨40e-3, A307, none⟩ : BoltFastener).getMinimumEdgeDistanceJ3_4M
        = some (1.25 * (⟨40e-3, A307, none⟩ : BoltFastener).diameter)) ∧
    ((⟨36e-3, A307, none⟩ : BoltFastener).getNominalHoleDiameter false
        = some ((⟨36e-3, A307, none⟩ : BoltFastener).diameter + 3e-3) ∧
      (⟨36e-3, A307, none⟩ : BoltFastener).getNominalHoleDiameter true
        = some ((⟨36e-3, A307, none⟩ : BoltFastener).diameter + 8e-3)) ∧
    ((⟨34e-3, A307, none⟩ : BoltFastener).getNominalHoleDiameter false
        = none ∧
      (⟨34e-3, A307, none⟩ : BoltFastener).getNominalHoleDiameter true
        = none) :=
  ⟨boltTables_amended.1 ⟨12e-3, A307, none⟩ (by norm_num),
   boltTables_amended.2.1 ⟨40e-3, A307, none⟩ (by norm_num),
   boltTables_amended.2.2.1 ⟨36e-3, A307, none⟩ (by norm_num),
   boltTables_amended.2.2.2 ⟨34e-3, A307, none⟩ (by norm_num) (by norm_num)⟩

/-- The module constant `M16` is ungrouped: its default `A307` steel is in
none of the strength groups. -/
theorem M16_group_none : M16.getGroup = none := by
  simp [BoltFastener.getGroup, M16, A307, ASTMSteel.default, groupA, groupB,
    groupC]

/-- The module constant `M16` carries steel named `A307`. -/
theorem M16_steel_name : M16.steelType.name = some "A307" := rfl

/-- C6: for bolts whose steel is ungrouped, the A307 special case uses
310 MPa tensile / 186 MPa shear stress (independent of the
threads-excluded flag), other ungrouped steels use `0.75·fu` tensile and
`0.563·fu` / `0.45·fu` shear, design strength is always `0.75 ×` nominal,
and the M16/A307 example values are ≈ 62,329 N nominal and ≈ 46,747 N
design tensile strength. -/
theorem ungroupedBoltStrengths :
    (∀ b : BoltFastener, b.getGroup = none →
      (b.steelType.name = some "A307" →
        b.getNominalTensileStrength = b.getArea * 310e6 ∧
        ∀ te : Bool, b.getNominalShearStrength te = b.getArea * 186e6) ∧
      (b.steelType.name ≠ some "A307" →
        b.getNominalTensileStrength = b.getArea * (0.75 * b.steelType.fu) ∧
        ∀ te : Bool, b.getNominalShearStrength te
          = b.getArea * ((if te then 0.563 else 0.45) * b.steelType.fu))) ∧
    (∀ b : BoltFastener,
      b.getDesignTensileStrength = 0.75 * b.getNominalTensileStrength ∧
      ∀ te : Bool,
        b.getDesignShearStrength te = 0.75 * b.getNominalShearStrength te) ∧
    |M16.getNominalTensileStrength - 62329| < 1 ∧
    |M16.getDesignTensileStrength - 46747| < 1 := by
  have hpi1 := Real.pi_gt_d6
  have hpi2 := Real.pi_lt_d6
  have hnt : M16.getNominalTensileStrength = Real.pi * 19840 := by
    simp only [BoltFastener.getNominalTensileStrength, M16_group_none]
    rw [if_pos M16_steel_name]
    show Real.pi * ((16e-3 : ℝ) / 2) ^ 2 * 310e6 = Real.pi * 19840
    norm_num
    ring
  refine ⟨fun b hg => ⟨fun hname => ?_, fun hname => ?_⟩, fun b => ⟨rfl, fun te => rfl⟩, ?_, ?_⟩
  · constructor
    · simp only [BoltFastener.getNominalTensileStrength, hg]
      rw [if_pos hname]
    · intro te
      simp only [BoltFastener.getNominalShearStrength, hg]
      rw [if_pos hname]
  · constructor
    · simp only [BoltFastener.getNominalTensileStrength, hg]
      rw [if_neg hname]
    · intro te
      simp only [BoltFastener.getNominalShearStrength, hg]
      rw [if_neg hname]
  · rw [hnt, abs_lt]
    constructor <;> nlinarith
  · rw [BoltFastener.getDesignTensileStrength, hnt, abs_lt]
    constructor <;> nlinarith

/-- Witness for C6 at the module constant `M16` (ungrouped A307 steel). -/
theorem ungroupedBoltStrengths_witness :
    M16.getNominalTensileStrength = M16.getArea * 310e6 ∧
    ∀ te : Bool, M16.getNominalShearStrength te = M16.getArea * 186e6 :=
  (ungroupedBoltStrengths.1 M16 M16_group_none).1 M16_steel_name

/-- The reversed standard-bolt list, largest diameter first. -/
theorem standardBolts_reverse :
    standardBolts.reverse = [M36, M30, M27, M24, M22, M20, M16] := rfl

/-- The reversed standard-bolt list is sorted by descending diameter. -/
theorem standardBoltsRev_sorted :
    standardBolts.reverse.Pairwise
      (fun a b : BoltFastener => b.diameter ≤ a.diameter) := by
  rw [standardBolts_reverse]
  norm_num [List.pairwise_cons, M16, M20, M22, M24, M27, M30, M36]

/-- C7: `getBoltForHole` scans the standard sizes from largest to smallest
and returns the first bolt whose nominal standard hole diameter is
strictly below `holeDiameter + tol`; any returned bolt is therefore a
standard bolt that fits and no fitting standard bolt is larger, and the
result is `None` exactly when no standard bolt fits. -/
theorem getBoltForHole_largest_fit (holeDiameter tol : ℝ) :
    (∀ b, getBoltForHole holeDiameter tol = some b →
      b ∈ standardBolts ∧ boltFitsHole holeDiameter tol b = true ∧
        ∀ a ∈ standardBolts, boltFitsHole holeDiameter tol a = true →
          a.diameter ≤ b.diameter) ∧
    (getBoltForHole holeDiameter tol = none ↔
      ∀ a ∈ standardBolts, ¬boltFitsHole holeDiameter tol a = true) := by
  constructor
  · intro b hb
    refine ⟨?_, ?_, ?_⟩
    · exact List.mem_reverse.mp (List.mem_of_find?_eq_some hb)
    · exact List.find?_some hb
    · intro a ha hpa
      exact findDescLargest (fun x => x.diameter)
        (boltFitsHole holeDiameter tol) standardBolts.reverse
        standardBoltsRev_sorted b hb a (List.mem_reverse.mpr ha) hpa
  · rw [getBoltForHole, List.find?_eq_none]
    constructor
    · intro h a ha
      exact h a (List.mem_reverse.mpr ha)
    · intro h a ha
      exact h a (List.mem_reverse.mp ha)

/-- The nominal standard hole diameter of `M36` (the `d ≥ 36mm` offset
branch): `39 mm`. -/
theorem M36_holeDiameter : M36.getNominalHoleDiameter false = some 39e-3 := by
  rw [BoltFastener.getNominalHoleDiameter]
  norm_num [M36]

/-- For a 40 mm hole and 0.5 mm tolerance the scan accepts `M36` at once. -/
theorem getBoltForHole_40mm :
    getBoltForHole 0.040 0.0005 = some M36 := by
  have hfit : boltFitsHole 0.040 0.0005 M36 = true := by
    rw [boltFitsHole, M36_holeDiameter]
    norm_num
  rw [getBoltForHole, standardBolts_reverse, List.find?_cons_of_pos _ hfit]

/-- Witness for C7 at `holeDiameter = 40 mm`, `tol = 0.5 mm`, where the
returned bolt is `M36`. -/
theorem getBoltForHole_largest_fit_witness :
    M36 ∈ standardBolts ∧ boltFitsHole 0.040 0.0005 M36 = true ∧
      ∀ a ∈ standardBolts, boltFitsHole 0.040 0.0005 a = true →
        a.diameter ≤ M36.diameter :=
  (getBoltForHole_largest_fit 0.040 0.0005).1 M36 getBoltForHole_40mm

/-- C1: for compact and noncompact sections `getCriticalStressE` returns
`0.658^(Fy/Fe)·Fy` when the flexural slenderness ratio is at most
`4.71·√(E/Fy)` OR `Fy/Fe ≤ 2.25` (the join is a disjunction), and
`0.877·Fe` otherwise; `ConnectedMember.getCriticalStress` applies the same
two-regime rule with the member's own slenderness ratio (effective length
over the minimum radius of gyration) and its own elastic buckling
stress. -/
theorem criticalStressE_two_regime :
    (∀ (s : ASTMShape) (effY effZ : ℝ) (classif : SectionClassif) (Fe : ℝ),
      0 < Fe → (classif = .compact ∨ classif = .noncompact) →
      (s.getCriticalStressE effY effZ classif Fe).1 =
        some (if (s.getFlexuralSlendernessRatio effY effZ).1
                ≤ 4.71 * Real.sqrt (s.E / s.steelType.fy)
              ∨ s.steelType.fy / Fe ≤ 2.25 then
            (0.658 : ℝ) ^ (s.steelType.fy / Fe) * s.steelType.fy
          else 0.877 * Fe)) ∧
    (∀ m : ConnectedMember,
      m.getSlendernessRatio
          = m.getEffectiveLength / min m.shape.iy m.shape.iz ∧
      m.getCriticalStress =
        if m.getSlendernessRatio
            ≤ 4.71 * Real.sqrt (m.shape.steelType.E / m.shape.steelType.fy)
          ∨ m.shape.steelType.fy / m.getElasticBucklingStress ≤ 2.25 then
          (0.658 : ℝ) ^ (m.shape.steelType.fy / m.getElasticBucklingStress)
            * m.shape.steelType.fy
        else 0.877 * m.getElasticBucklingStress) := by
  constructor
  · rintro s effY effZ classif Fe _ (rfl | rfl) <;>
      · rw [ASTMShape.getCriticalStressE, if_pos (by decide)]
        rw [apply_ite Prod.fst]
        split <;> rfl
  · intro m
    exact ⟨rfl, rfl⟩

/-- Witness for C1 at the sample shape (compact section, `Fe = 1`) and the
sample member. -/
theorem criticalStressE_two_regime_witness :
    ((sampleShape.getCriticalStressE 1 2 SectionClassif.compact 1).1 =
      some (if (sampleShape.getFlexuralSlendernessRatio 1 2).1
              ≤ 4.71 * Real.sqrt (sampleShape.E / sampleShape.steelType.fy)
            ∨ sampleShape.steelType.fy / 1 ≤ 2.25 then
          (0.658 : ℝ) ^ (sampleShape.steelType.fy / 1)
            * sampleShape.steelType.fy
        else 0.877 * 1)) ∧
    sampleMember.getSlendernessRatio
      = sampleMember.getEffectiveLength
        / min sampleMember.shape.iy sampleMember.shape.iz :=
  ⟨criticalStressE_two_regime.1 sampleShape 1 2 SectionClassif.compact 1
      one_pos (Or.inl rfl),
   (criticalStressE_two_regime.2 sampleMember).1⟩

/-- C4 counterexample: at a slender classification `getCriticalStressE`
does log the not-implemented error, but it still executes its final
`return retval` and hands back the number `0.0` — the result is not a
missing/None value. -/
theorem criticalStressE_slender_cx :
    (sampleShape.getCriticalStressE 1 1 SectionClassif.slender 1).1
        = some 0 ∧
    (sampleShape.getCriticalStressE 1 1 SectionClassif.slender 1).1
        ≠ none ∧
    (sampleShape.getCriticalStressE 1 1 SectionClassif.slender 1).2
        = ["Critical stress of slender members not implemented yet."] := by
  rw [ASTMShape.getCriticalStressE, if_neg (by decide)]
  exact ⟨rfl, by simp, rfl⟩

/-- C4 (amended): for slender and too-slender classifications
`getCriticalStressE` logs `'Critical stress of slender members not
implemented yet.'` and returns the sentinel number `0.0` (the initialised
`retval`), not a missing/None value. -/
theorem criticalStressE_slender_amended :
    ∀ (s : ASTMShape) (effY effZ Fe : ℝ) (classif : SectionClassif),
      (classif = .slender ∨ classif = .tooSlender) →
      s.getCriticalStressE effY effZ classif Fe =
        (some 0,
         ["Critical stress of slender members not implemented yet."]) := by
  rintro s effY effZ Fe classif (rfl | rfl) <;>
    rw [ASTMShape.getCriticalStressE, if_neg (by decide)]

/-- Witness for C4 at the sample shape with a too-slender section. -/
theorem criticalStressE_slender_amended_witness :
    sampleShape.getCriticalStressE 1 1 SectionClassif.tooSlender 1 =
      (some 0,
       ["Critical stress of slender members not implemented yet."]) :=
  criticalStressE_slender_amended sampleShape 1 1 1
    SectionClassif.tooSlender (Or.inr rfl)

/-- C9: `ConnectedMember.getCapacityFactor` computes the H1 interaction
value only for `Nd ≤ 0` (so `Nd = 0` takes the compression branch); for
every `Nd > 0` it logs `'Capacity factor not implemented for tension.'`
and returns no value; `ASTMShape.getBiaxialBendingEfficiency`, in
contrast, handles every `Nd ≥ 0` through its tensile-capacity branch and
returns a tuple. -/
theorem capacityFactor_tension_none :
    (∀ (m : ConnectedMember) (Nd Myd Mzd gammaC : ℝ)
        (bsY bsZ : BendingState), Nd ≤ 0 →
      m.getCapacityFactor Nd Myd Mzd gammaC bsY bsZ 1.0 =
        (some (
          let Pn := m.getNominalCompressiveStrength / gammaC
          let Mnz := m.shape.nominalFlexuralStrength m.connection.Lb
            (m.connection.getLateralTorsionalBucklingModificationFactor bsZ)
            true / gammaC
          let Mny := m.getYNominalFlexuralStrength bsY / gammaC
          let ratioN := |Nd| / Pn
          let Msum := |Mzd| / Mnz + |Myd| / Mny
          if ratioN ≥ 0.2 then ratioN + 8 / 9.0 * Msum
          else ratioN / 2.0 + Msum), [])) ∧
    (∀ (m : ConnectedMember) (Nd Myd Mzd gammaC AfgAfnRatio : ℝ)
        (bsY bsZ : BendingState), 0 < Nd →
      m.getCapacityFactor Nd Myd Mzd gammaC bsY bsZ AfgAfnRatio =
        (none, ["Capacity factor not implemented for tension."])) ∧
    (∀ (s : ASTMShape) (classif : SectionClassif)
        (Nd Myd Mzd Vyd chiN chiLT : ℝ), 0 ≤ Nd →
      s.getBiaxialBendingEfficiency classif Nd Myd Mzd Vyd chiN chiLT =
        (some (
          let NcRd := s.getDesignTensileStrength none
          let McRdy := s.designFlexuralStrength none none false
          let McRdz := s.getReferenceFlexuralStrength
          let MbRdz := chiLT * McRdz
          let ratioN := Nd / NcRd
          let ratioMz := |Mzd| / MbRdz
          let ratioMy := |Myd| / McRdy
          ((if ratioN ≥ 0.2 then ratioN + 8.0 / 9.0 * (ratioMz + ratioMy)
            else ratioN / 2.0 + (ratioMz + ratioMy)),
           NcRd, McRdy, McRdz, McRdz, MbRdz)), [])) := by
  refine ⟨fun m Nd Myd Mzd gammaC bsY bsZ h => ?_,
    fun m Nd Myd Mzd gammaC r bsY bsZ h => ?_,
    fun s classif Nd Myd Mzd Vyd chiN chiLT h => ?_⟩
  · have hz : m.getZNominalFlexuralStrength bsZ 1.0 =
        some (m.shape.nominalFlexuralStrength m.connection.Lb
          (m.connection.getLateralTorsionalBucklingModificationFactor bsZ)
          true) := by
      rw [ConnectedMember.getZNominalFlexuralStrength, if_neg (by norm_num)]
    rw [ConnectedMember.getCapacityFactor, if_pos h, hz]
  · rw [ConnectedMember.getCapacityFactor, if_neg (not_le.mpr h)]
  · rw [ASTMShape.getBiaxialBendingEfficiency, if_neg (not_lt.mpr h)]

/-- Witness for C9 at the sample member and shape: `Nd = 0` takes the
compression branch, `Nd = 5` is rejected with the tension error, and the
biaxial-efficiency tensile branch answers at `Nd = 0`. -/
theorem capacityFactor_tension_none_witness :
    (sampleMember.getCapacityFactor 0 1 1 1 sampleBendingState
        sampleBendingState 1.0 =
      (some (
        let Pn := sampleMember.getNominalCompressiveStrength / 1
        let Mnz := sampleMember.shape.nominalFlexuralStrength
          sampleMember.connection.Lb
          (sampleMember.connection.getLateralTorsionalBucklingModificationFactor
            sampleBendingState) true / 1
        let Mny := sampleMember.getYNominalFlexuralStrength
          sampleBendingState / 1
        let ratioN := |(0 : ℝ)| / Pn
        let Msum := |(1 : ℝ)| / Mnz + |(1 : ℝ)| / Mny
        if ratioN ≥ 0.2 then ratioN + 8 / 9.0 * Msum
        else ratioN / 2.0 + Msum), [])) ∧
    (sampleMember.getCapacityFactor 5 1 1 1 sampleBendingState
        sampleBendingState 1.0 =
      (none, ["Capacity factor not implemented for tension."])) ∧
    (sampleShape.getBiaxialBendingEfficiency SectionClassif.compact 0 1 1 0
        1 1 =
      (some (
        let NcRd := sampleShape.getDesignTensileStrength none
        let McRdy := sampleShape.designFlexuralStrength none none false
        let McRdz := sampleShape.getReferenceFlexuralStrength
        let MbRdz := 1 * McRdz
        let ratioN := (0 : ℝ) / NcRd
        let ratioMz := |(1 : ℝ)| / MbRdz
        let ratioMy := |(1 : ℝ)| / McRdy
        ((if ratioN ≥ 0.2 then ratioN + 8.0 / 9.0 * (ratioMz + ratioMy)
          else ratioN / 2.0 + (ratioMz + ratioMy)),
         NcRd, McRdy, McRdz, McRdz, MbRdz)), [])) :=
  ⟨capacityFactor_tension_none.1 sampleMember 0 1 1 1 sampleBendingState
      sampleBendingState le_rfl,
   capacityFactor_tension_none.2.1 sampleMember 5 1 1 1 1.0
      sampleBendingState sampleBendingState (by norm_num),
   capacityFactor_tension_none.2.2 sampleShape SectionClassif.compact 0 1 1
      0 1 1 le_rfl⟩

/-- General evaluation of the group breakout strength on a non-empty
anchor list: the single-anchor capacity scaled by the union-area ratio,
the depth power law and the pound-force to newton conversion. -/
theorem anchorGroup_breakout_cons (g : AnchorGroup) (a0 : AnchorBolt)
    (t : List AnchorBolt) (h_ef fc psi3 phi : ℝ)
    (hg : g.anchors = a0 :: t) :
    g.getConcreteBreakoutStrength h_ef fc psi3 phi =
      some (phi * psi3 * Real.sqrt (fc * 145.038e-6)
        * ((t.map (fun a => a.getConcreteBreakoutConePolygon h_ef)).foldl
            Polygon2d.unePolygon2d
            (a0.getConcreteBreakoutConePolygon h_ef)).getArea
          / (a0.getConcreteBreakoutConePolygon h_ef).getArea
        * (if h_ef / 0.0254 < 11 then 24 * (h_ef / 0.0254) ^ (1.5 : ℝ)
           else 16 * (h_ef / 0.0254) ^ ((5 : ℝ) / 3))
        * 4.4482216) := by
  rw [AnchorGroup.getConcreteBreakoutStrength,
    AnchorGroup.getConcreteBreakoutConePolygon, hg]
  simp only [List.map_cons, List.head?_cons, Option.some_bind,
    Option.map_some']
  congr 1
  split <;> ring

/-- C2: the group concrete breakout strength equals
`φ·ψ3·√(fc in psi) · (union area / first-anchor cone area)` scaled by the
embedment-depth power law (`24·h^1.5` below 11 in, `16·h^(5/3)` from
11 in) and converted from pound-force to newtons; for a single-anchor
group with a set position the area ratio is exactly 1, so the result is
the single-anchor-derived value scaled only by the depth power law. -/
theorem anchorGroupBreakoutStrength :
    (∀ (g : AnchorGroup) (a0 : AnchorBolt) (t : List AnchorBolt)
        (h_ef fc psi3 phi : ℝ), g.anchors = a0 :: t → 0 < h_ef →
      g.getConcreteBreakoutStrength h_ef fc psi3 phi =
        some (phi * psi3 * Real.sqrt (fc * 145.038e-6)
          * ((t.map (fun a => a.getConcreteBreakoutConePolygon h_ef)).foldl
              Polygon2d.unePolygon2d
              (a0.getConcreteBreakoutConePolygon h_ef)).getArea
            / (a0.getConcreteBreakoutConePolygon h_ef).getArea
          * (if h_ef / 0.0254 < 11 then 24 * (h_ef / 0.0254) ^ (1.5 : ℝ)
             else 16 * (h_ef / 0.0254) ^ ((5 : ℝ) / 3))
          * 4.4482216)) ∧
    (∀ (g : AnchorGroup) (a0 : AnchorBolt) (p : Pos3d)
        (h_ef fc psi3 phi : ℝ), g.anchors = [a0] → a0.pos3d = some p →
        0 < h_ef →
      g.getConcreteBreakoutStrength h_ef fc psi3 phi =
        some (phi * psi3 * Real.sqrt (fc * 145.038e-6)
          * (if h_ef / 0.0254 < 11 then 24 * (h_ef / 0.0254) ^ (1.5 : ℝ)
             else 16 * (h_ef / 0.0254) ^ ((5 : ℝ) / 3))
          * 4.4482216)) := by
  constructor
  · intro g a0 t h_ef fc psi3 phi hg _
    exact anchorGroup_breakout_cons g a0 t h_ef fc psi3 phi hg
  · intro g a0 p h_ef fc psi3 phi hg hpos hpow
    rw [anchorGroup_breakout_cons g a0 [] h_ef fc psi3 phi hg]
    congr 1
    have hc : a0.getConcreteBreakoutConePolygon h_ef
        = squareRegion p.x p.y (1.5 * h_ef) := by
      rw [AnchorBolt.getConcreteBreakoutConePolygon, hpos]
    have ha : (a0.getConcreteBreakoutConePolygon h_ef).getArea
        = 2 * (1.5 * h_ef) * (2 * (1.5 * h_ef)) := by
      rw [hc]
      exact squareRegion_area _ _ _ (by linarith)
    have hne : 2 * (1.5 * h_ef) * (2 * (1.5 * h_ef)) ≠ 0 := by positivity
    simp only [List.map_nil, List.foldl_nil]
    rw [ha, mul_div_assoc, div_self hne, mul_one]

/-- Witness for C2 at the sample single-anchor group
(`h_ef = 0.254 m`, `fc = 2e7 Pa`, `ψ3 = 1.25`, `φ = 0.7`). -/
theorem anchorGroupBreakoutStrength_witness :
    sampleAnchorGroup.getConcreteBreakoutStrength 0.254 2e7 1.25 0.7 =
      some (0.7 * 1.25 * Real.sqrt (2e7 * 145.038e-6)
        * (if (0.254 : ℝ) / 0.0254 < 11
           then 24 * ((0.254 : ℝ) / 0.0254) ^ (1.5 : ℝ)
           else 16 * ((0.254 : ℝ) / 0.0254) ^ ((5 : ℝ) / 3))
        * 4.4482216) :=
  anchorGroupBreakoutStrength.2 sampleAnchorGroup sampleAnchor
    ⟨0, 0, 0⟩ 0.254 2e7 1.25 0.7 rfl rfl (by norm_num)

/-- C10: the `AnchorGroup` operations unconditionally read
`self.anchors[0]`, so on a zero-anchor group the cone-polygon, breakout
strength and report computations fail with an out-of-bounds access
(modelled `none`), while every group with at least one anchor (all
positions set) gets a result. -/
theorem anchorGroup_requires_anchor :
    (∀ g : AnchorGroup, g.anchors = [] →
      (∀ h_ef : ℝ, g.getConcreteBreakoutConePolygon h_ef = none) ∧
      (∀ h_ef fc psi3 phi : ℝ,
        g.getConcreteBreakoutStrength h_ef fc psi3 phi = none) ∧
      g.report = none) ∧
    (∀ g : AnchorGroup, g.anchors ≠ [] →
      (∀ a ∈ g.anchors, a.pos3d ≠ none) →
      (∀ h_ef : ℝ, ∃ plg, g.getConcreteBreakoutConePolygon h_ef = some plg)
        ∧
      (∀ h_ef fc psi3 phi : ℝ,
        ∃ v, g.getConcreteBreakoutStrength h_ef fc psi3 phi = some v) ∧
      (∃ lines, g.report = some lines)) := by
  constructor
  · intro g hg
    refine ⟨fun h_ef => ?_, fun h_ef fc psi3 phi => ?_, ?_⟩
    · rw [AnchorGroup.getConcreteBreakoutConePolygon, hg]
      rfl
    · rw [AnchorGroup.getConcreteBreakoutStrength,
        AnchorGroup.getConcreteBreakoutConePolygon, hg]
      rfl
    · rw [AnchorGroup.report, hg]
      rfl
  · intro g hg _
    obtain ⟨a0, t, hat⟩ := List.exists_cons_of_ne_nil hg
    refine ⟨fun h_ef => ?_, fun h_ef fc psi3 phi => ?_, ?_⟩
    · exact ⟨_, by rw [AnchorGroup.getConcreteBreakoutConePolygon, hat,
        List.map_cons]⟩
    · exact ⟨_, anchorGroup_breakout_cons g a0 t h_ef fc psi3 phi hat⟩
    · exact ⟨["   anchors: ",
        "     number of anchors: " ++ toString (a0 :: t).length ++ " x "
          ++ a0.getName] ++ a0.report,
        by rw [AnchorGroup.report, hat, List.head?_cons]; rfl⟩

/-- Witness for C10 at the empty group and the sample single-anchor
group. -/
theorem anchorGroup_requires_anchor_witness :
    ((∀ h_ef : ℝ,
        emptyAnchorGroup.getConcreteBreakoutConePolygon h_ef = none) ∧
      (∀ h_ef fc psi3 phi : ℝ,
        emptyAnchorGroup.getConcreteBreakoutStrength h_ef fc psi3 phi
          = none) ∧
      emptyAnchorGroup.report = none) ∧
    ((∀ h_ef : ℝ, ∃ plg,
        sampleAnchorGroup.getConcreteBreakoutConePolygon h_ef = some plg) ∧
      (∀ h_ef fc psi3 phi : ℝ, ∃ v,
        sampleAnchorGroup.getConcreteBreakoutStrength h_ef fc psi3 phi
          = some v) ∧
      (∃ lines, sampleAnchorGroup.report = some lines)) :=
  ⟨anchorGroup_requires_anchor.1 emptyAnchorGroup rfl,
   anchorGroup_requires_anchor.2 sampleAnchorGroup (by simp [sampleAnchorGroup])
     (by simp [sampleAnchorGroup, sampleAnchor])⟩
